import Mathlib

/-!
Verification of the ghaf-givc service request pipeline: the hardware-identity
probe cache (`HwIdServiceServer.get_hw_id` in `src/hwid_api/server.rs`), the
generic error escalation layer (`escalate` in `src/utils/tonic.rs`), and the
client call path (`HwIdClient.get_id` in `src/hwid_api/client.rs`).

The Rust code is shallowly embedded: the tokio mutex guarding the cached
identifier is held across the entire body of `get_hw_id`, so every call is
serialized; concurrent execution is therefore modelled as sequential state
passing over the guarded slot.  The underlying filesystem read is modelled as
a function from the number of prior reads to an outcome, and the state carries
a counter of performed reads so that "the underlying system read is invoked
exactly once" is a statement about the model itself.
-/

namespace Givc

/-! ## Wire status model (tonic `Status`) -/

/-- gRPC status codes used by this crate (`tonic::Code`). -/
inductive Code where
  | ok
  | invalidArgument
  | internal
  | unavailable
  deriving DecidableEq, Repr

/-- Opaque structured detail record attached to a rich status
(`tonic_types::ErrorDetails` entries). -/
inductive Detail where
  | detail (tag : String) (payload : String)
  deriving DecidableEq, Repr

/-- Model of `tonic::Status`: a code, a human-readable message and an ordered sequence
of structured details serialized into the wire status. -/
structure Status where
  code : Code
  message : String
  details : List Detail
  deriving DecidableEq, Repr

/-- Constructor `tonic::Status::internal(msg)`: an internal-fault status with no details. -/
def Status.internal (msg : String) : Status :=
  { code := Code.internal, message := msg, details := [] }

/-- Constructor `tonic_types::Status::with_error_details(code, message, details)`. -/
def Status.with_error_details (code : Code) (message : String)
    (details : List Detail) : Status :=
  { code := code, message := message, details := details }

/-- Constructor `tonic_types::ErrorDetails::new()`: the empty details collection. -/
def ErrorDetails.new : List Detail := []

/-! ## Byte-level model of the probe source -/

/-- Model of `std::io::Error`, identified by its rendered display text (the model keeps
only what `to_string` observes). -/
structure IoError where
  message : String
  deriving DecidableEq, Repr

/-- Rendering `e.to_string()` for an I/O error. -/
def IoError.render (e : IoError) : String := e.message

/-- Model of `std::string::FromUtf8Error`: the length of the valid prefix and, when the
offending sequence is complete, its length (`None` for a truncated tail). -/
structure Utf8Error where
  validUpTo : Nat
  errorLen : Option Nat
  deriving DecidableEq, Repr

/-- Rendering `e.to_string()` for a UTF-8 decoding error, following the `Display`
implementation of `Utf8Error` in the Rust standard library. -/
def Utf8Error.render (e : Utf8Error) : String :=
  match e.errorLen with
  | some n =>
      "invalid utf-8 sequence of " ++ toString n ++ " bytes from index "
        ++ toString e.validUpTo
  | none => "incomplete utf-8 byte sequence from index " ++ toString e.validUpTo

/-- A continuation byte `0x80..=0xBF`. -/
def isCont (b : Nat) : Bool := 0x80 ≤ b && b ≤ 0xBF

/-- UTF-8 decoding of a byte list, faithful to `String::from_utf8`: rejects
overlong encodings, surrogate code points and values above `U+10FFFF`.
`i` is the index of the first byte of `l` in the original input and `acc`
the characters decoded so far. -/
def utf8DecodeAux : List Nat → Nat → List Char → Except Utf8Error (List Char)
  | [], _, acc => Except.ok acc.reverse
  | b :: rest, i, acc =>
    if b < 0x80 then
      utf8DecodeAux rest (i + 1) (Char.ofNat b :: acc)
    else if 0xC2 ≤ b && b ≤ 0xDF then
      match rest with
      | [] => Except.error ⟨i, none⟩
      | b1 :: rest1 =>
        if isCont b1 then
          utf8DecodeAux rest1 (i + 2)
            (Char.ofNat ((b - 0xC0) * 0x40 + (b1 - 0x80)) :: acc)
        else Except.error ⟨i, some 1⟩
    else if (b = 0xE0 || (0xE1 ≤ b && b ≤ 0xEF)) then
      match rest with
      | [] => Except.error ⟨i, none⟩
      | b1 :: rest1 =>
        let firstOk : Bool :=
          if b = 0xE0 then 0xA0 ≤ b1 && b1 ≤ 0xBF
          else if b = 0xED then 0x80 ≤ b1 && b1 ≤ 0x9F
          else isCont b1
        if firstOk then
          match rest1 with
          | [] => Except.error ⟨i, none⟩
          | b2 :: rest2 =>
            if isCont b2 then
              utf8DecodeAux rest2 (i + 3)
                (Char.ofNat ((b - 0xE0) * 0x1000 + (b1 - 0x80) * 0x40
                  + (b2 - 0x80)) :: acc)
            else Except.error ⟨i, some 2⟩
        else Except.error ⟨i, some 1⟩
    else if 0xF0 ≤ b && b ≤ 0xF4 then
      match rest with
      | [] => Except.error ⟨i, none⟩
      | b1 :: rest1 =>
        let firstOk : Bool :=
          if b = 0xF0 then 0x90 ≤ b1 && b1 ≤ 0xBF
          else if b = 0xF4 then 0x80 ≤ b1 && b1 ≤ 0x8F
          else isCont b1
        if firstOk then
          match rest1 with
          | [] => Except.error ⟨i, none⟩
          | b2 :: rest2 =>
            if isCont b2 then
              match rest2 with
              | [] => Except.error ⟨i, none⟩
              | b3 :: rest3 =>
                if isCont b3 then
                  utf8DecodeAux rest3 (i + 4)
                    (Char.ofNat ((b - 0xF0) * 0x40000 + (b1 - 0x80) * 0x1000
                      + (b2 - 0x80) * 0x40 + (b3 - 0x80)) :: acc)
                else Except.error ⟨i, some 3⟩
            else Except.error ⟨i, some 2⟩
        else Except.error ⟨i, some 1⟩
    else Except.error ⟨i, some 1⟩

/-- Model of `String::from_utf8(raw)`. -/
def from_utf8 (raw : List Nat) : Except Utf8Error String :=
  (utf8DecodeAux raw 0 []).map String.mk

/-- Rust's `char::is_whitespace`: the Unicode `White_Space` property. -/
def isRustWhitespace (c : Char) : Bool :=
  c.toNat ∈ [0x09, 0x0A, 0x0B, 0x0C, 0x0D, 0x20, 0x85, 0xA0, 0x1680,
    0x2000, 0x2001, 0x2002, 0x2003, 0x2004, 0x2005, 0x2006, 0x2007,
    0x2008, 0x2009, 0x200A, 0x2028, 0x2029, 0x202F, 0x205F, 0x3000]

/-- Rust's `str::trim`: removes leading and trailing whitespace characters. -/
def rustTrim (s : String) : String :=
  String.mk
    (((s.toList.dropWhile isRustWhitespace).reverse.dropWhile
      isRustWhitespace).reverse)

/-! ## Protocol messages and response envelope -/

/-- Message `pb::hwid::HwIdRequest`: the identity query carries no fields. -/
structure HwIdRequest where
  deriving DecidableEq, Repr

/-- Message `pb::hwid::HwIdResponse`: the single identifier field. -/
structure HwIdResponse where
  identifier : String
  deriving DecidableEq, Repr

/-- Envelope `tonic::Response<R>`: a decoded outbound response. -/
structure Response (R : Type) where
  inner : R
  deriving DecidableEq, Repr

/-- Constructor `tonic::Response::new(r)`. -/
def Response.new {R : Type} (r : R) : Response R := { inner := r }

/-- Accessor `resp.into_inner()`. -/
def Response.into_inner {R : Type} (resp : Response R) : R := resp.inner

/-! ## The hardware-identity server (`src/hwid_api/server.rs`) -/

/-- Struct `HwIdServiceServer`: the interface name fixed at construction.  The
mutex-guarded `identifier` slot is carried separately as explicit state. -/
structure HwIdServiceServer where
  interface : String
  deriving DecidableEq, Repr

/-- Contents of the `identifier: Mutex<Option<String>>` slot plus an
instrumentation counter of underlying filesystem reads performed so far. -/
structure ServerState where
  identifier : Option String
  readCount : Nat
  deriving DecidableEq, Repr

/-- The freshly constructed server state: `Default` gives an empty slot, and no
read has been performed yet. -/
def ServerState.initial : ServerState := { identifier := none, readCount := 0 }

/-- Combinator `to_tonic` from the `TonicStatus` trait impl: maps any error to
`Status::internal(e.to_string())`, with `render` standing for `ToString`. -/
def to_tonic {α ε : Type} (render : ε → String) (r : Except ε α) :
    Except Status α :=
  r.mapError (fun e => Status.internal (render e))

/-- The path `format!("/sys/class/net/\x7b\x7d/address", interface)`. -/
def addressPath (interface : String) : String :=
  "/sys/class/net/" ++ interface ++ "/address"

/-- Method `HwIdServiceServer::get_hw_id`, with the filesystem read modelled as
a function `fs` from (path, number of prior reads) to raw bytes or an I/O
error.  The tokio mutex is held across the whole body, so each call is one
atomic state transition. -/
def get_hw_id (srv : HwIdServiceServer)
    (fs : String → Nat → Except IoError (List Nat))
    (_request : HwIdRequest) (s : ServerState) :
    Except Status (Response HwIdResponse) × ServerState :=
  match s.identifier with
  | some id => (Except.ok (Response.new { identifier := id }), s)
  | none =>
    match to_tonic IoError.render (fs (addressPath srv.interface) s.readCount) with
    | Except.error st => (Except.error st, { s with readCount := s.readCount + 1 })
    | Except.ok raw =>
      match to_tonic Utf8Error.render (from_utf8 raw) with
      | Except.error st => (Except.error st, { s with readCount := s.readCount + 1 })
      | Except.ok str =>
        let id := rustTrim str
        (Except.ok (Response.new { identifier := id }),
         { identifier := some id, readCount := s.readCount + 1 })

/-- Sequential composition of `n` calls to `get_hw_id` (the mutex serializes
any interleaving of `n` concurrent callers into such a sequence), returning
every caller's result and the final state. -/
def runCalls (srv : HwIdServiceServer)
    (fs : String → Nat → Except IoError (List Nat))
    (n : Nat) (s : ServerState) :
    List (Except Status (Response HwIdResponse)) × ServerState :=
  match n with
  | 0 => ([], s)
  | Nat.succ m =>
    let first := get_hw_id srv fs {} s
    let rest := runCalls srv fs m first.2
    (first.1 :: rest.1, rest.2)

/-! ## The escalation layer (`src/utils/tonic.rs`) -/

/-- Model of `anyhow::Error`: an arbitrary internal error value, identified by
its rendered text; the escalation layer never inspects it. -/
structure AnyhowError where
  message : String
  deriving DecidableEq, Repr

/-- Function `escalate(req, fun)`: runs the handler on the decoded request;
on success wraps the result in a response envelope, on failure builds the
fixed invalid-argument status with empty details. -/
def escalate {T R : Type} (req : T) (f : T → Except AnyhowError R) :
    Except Status (Response R) :=
  match f req with
  | Except.ok res => Except.ok (Response.new res)
  | Except.error _ =>
    let err_details := ErrorDetails.new
    Except.error (Status.with_error_details Code.invalidArgument
      "request contains invalid arguments" err_details)

/-! ## The client (`src/hwid_api/client.rs`) -/

/-- Error of `EndpointConfig::connect`, identified by its rendered text. -/
structure ConnectError where
  message : String
  deriving DecidableEq, Repr

/-- Error type of `HwIdClient::get_id` (an `anyhow::Result`): the `?` operator
wraps either the transport connect error or the RPC status, unchanged. -/
inductive ClientError where
  | transport (e : ConnectError)
  | status (st : Status)
  deriving DecidableEq, Repr

/-- Instrumentation: how many times `get_id` invoked each collaborator. -/
structure CallCounts where
  connects : Nat
  rpcs : Nat
  deriving DecidableEq, Repr

/-- Method `HwIdClient::get_id`: connects, issues the `get_hw_id` RPC and
extracts the identifier; each `?` propagates the failure.  The connect
outcome and the remote call are the two collaborators, and the call counts
record how often each was invoked. -/
def get_id (connect : Except ConnectError Unit)
    (rpc : HwIdRequest → Except Status (Response HwIdResponse)) :
    Except ClientError String × CallCounts :=
  match connect with
  | Except.error e => (Except.error (ClientError.transport e), { connects := 1, rpcs := 0 })
  | Except.ok _ =>
    match rpc {} with
    | Except.error st => (Except.error (ClientError.status st), { connects := 1, rpcs := 1 })
    | Except.ok resp => (Except.ok resp.into_inner.identifier, { connects := 1, rpcs := 1 })

/-! ## Helper lemmas -/

theorem to_tonic_ok {α ε : Type} (render : ε → String) (a : α) :
    to_tonic render (Except.ok a) = Except.ok a := rfl

theorem to_tonic_error {α ε : Type} (render : ε → String) (e : ε) :
    to_tonic (α := α) render (Except.error e) =
      Except.error (Status.internal (render e)) := rfl

/-- Once the slot holds a value, every further call returns it and leaves the
state (including the read counter) untouched. -/
theorem runCalls_memoized (srv : HwIdServiceServer)
    (fs : String → Nat → Except IoError (List Nat)) (n : Nat)
    (v : String) (c : Nat) :
    runCalls srv fs n { identifier := some v, readCount := c } =
      (List.replicate n (Except.ok (Response.new { identifier := v })),
       { identifier := some v, readCount := c }) := by
  induction n with
  | zero => simp [runCalls]
  | succ m ih => simp [runCalls, get_hw_id, ih, List.replicate]

/-- A first call on an empty slot with a successful, decodable read stores the
trimmed text and counts one read. -/
theorem get_hw_id_first_success (srv : HwIdServiceServer)
    (fs : String → Nat → Except IoError (List Nat))
    (raw : List Nat) (str : String) (c : Nat)
    (hfs : fs (addressPath srv.interface) c = Except.ok raw)
    (hdec : from_utf8 raw = Except.ok str) :
    get_hw_id srv fs {} { identifier := none, readCount := c } =
      (Except.ok (Response.new { identifier := rustTrim str }),
       { identifier := some (rustTrim str), readCount := c + 1 }) := by
  simp [get_hw_id, hfs, hdec, to_tonic_ok, to_tonic_error]

/-! ## Claims about the escalation layer -/

/-- C4.  Error adaptation totality: whatever internal error the handler
returns, `escalate` answers with the structured status (a code, a message and
a details sequence), never the internal error itself; on handler success it
returns the handler result wrapped in a response envelope. -/
theorem escalate_totality {T R : Type} (req : T)
    (f : T → Except AnyhowError R) :
    (∀ res : R, f req = Except.ok res →
      escalate req f = Except.ok (Response.new res)) ∧
    (∀ e : AnyhowError, f req = Except.error e →
      escalate req f = Except.error (Status.with_error_details
        Code.invalidArgument "request contains invalid arguments"
        ErrorDetails.new)) := by
  constructor <;> intro x h <;> simp [escalate, h]

/-- Witness for C4 at a concrete handler that fails. -/
theorem escalate_totality_witness :
    escalate 0 (fun _ : Nat =>
        (Except.error { message := "boom" } : Except AnyhowError String)) =
      Except.error (Status.with_error_details Code.invalidArgument
        "request contains invalid arguments" ErrorDetails.new) :=
  (escalate_totality 0 _).2 { message := "boom" } rfl

/-- C5.  On every handler failure `escalate` reports the client-fault code
`invalid argument`, regardless of the underlying cause. -/
theorem escalate_client_fault_code {T R : Type} (req : T)
    (f : T → Except AnyhowError R) (e : AnyhowError)
    (h : f req = Except.error e) :
    ∃ st : Status, escalate req f = Except.error st ∧
      st.code = Code.invalidArgument := by
  refine ⟨Status.with_error_details Code.invalidArgument
    "request contains invalid arguments" ErrorDetails.new, ?_, rfl⟩
  simp [escalate, h]

/-- Witness for C5: a server-side-looking fault still comes back as
`invalid argument`. -/
theorem escalate_client_fault_code_witness :
    ∃ st : Status,
      escalate 0 (fun _ : Nat =>
        (Except.error { message := "Permission denied (os error 13)" } :
          Except AnyhowError String)) = Except.error st ∧
      st.code = Code.invalidArgument :=
  escalate_client_fault_code 0 _ { message := "Permission denied (os error 13)" } rfl

/-- C9.  Noninterference: the failure status built by `escalate` is the same
for any two internal errors — the fixed invalid-argument code, the fixed
message and an empty details sequence — so nothing of the internal error
reaches the response. -/
theorem escalate_error_noninterference {T R : Type} (req₁ req₂ : T)
    (f₁ f₂ : T → Except AnyhowError R) (e₁ e₂ : AnyhowError)
    (h₁ : f₁ req₁ = Except.error e₁) (h₂ : f₂ req₂ = Except.error e₂) :
    escalate req₁ f₁ = escalate req₂ f₂ ∧
    escalate req₁ f₁ = Except.error
      { code := Code.invalidArgument,
        message := "request contains invalid arguments",
        details := [] } := by
  constructor <;>
    simp [escalate, h₁, h₂, Status.with_error_details, ErrorDetails.new]

/-- Witness for C9 at two distinct concrete errors. -/
theorem escalate_error_noninterference_witness :
    escalate 0 (fun _ : Nat =>
        (Except.error { message := "No such file or directory (os error 2)" } :
          Except AnyhowError String)) =
      escalate 1 (fun _ : Nat =>
        (Except.error { message := "secret internal state" } :
          Except AnyhowError String)) :=
  (escalate_error_noninterference 0 1 _ _
    { message := "No such file or directory (os error 2)" }
    { message := "secret internal state" } rfl rfl).1

/-! ## Claims about the hardware-identity server -/

/-- C1.  Single-flight: the mutex is held across the whole read-and-store
sequence, so N first-time callers are serialized into N sequential calls;
when the first read succeeds and decodes, the underlying read happens exactly
once (final read count 1) and every one of the N callers receives the same
identifier, with no intermediate state ever exposed. -/
theorem get_hw_id_single_flight (srv : HwIdServiceServer)
    (fs : String → Nat → Except IoError (List Nat))
    (raw : List Nat) (str : String) (n : Nat) (hn : 1 ≤ n)
    (hfs : fs (addressPath srv.interface) 0 = Except.ok raw)
    (hdec : from_utf8 raw = Except.ok str) :
    runCalls srv fs n ServerState.initial =
      (List.replicate n
        (Except.ok (Response.new { identifier := rustTrim str })),
       { identifier := some (rustTrim str), readCount := 1 }) := by
  obtain ⟨m, rfl⟩ : ∃ m, n = m + 1 :=
    ⟨n - 1, (Nat.succ_pred_eq_of_pos hn).symm⟩
  have h0 : ServerState.initial =
      ({ identifier := none, readCount := 0 } : ServerState) := rfl
  rw [runCalls, h0, get_hw_id_first_success srv fs raw str 0 hfs hdec]
  simp [runCalls_memoized, List.replicate]

/-- Witness for C1: three callers on a cold cache, one read, all equal. -/
theorem get_hw_id_single_flight_witness :
    runCalls { interface := "eth0" }
      (fun _ _ => Except.ok [97, 98, 10]) 3 ServerState.initial =
      (List.replicate 3 (Except.ok (Response.new { identifier := "ab" })),
       { identifier := some "ab", readCount := 1 }) :=
  get_hw_id_single_flight { interface := "eth0" } _ [97, 98, 10] "ab\n" 3
    (by decide) rfl rfl

/-- C2.  Idempotent memoization: once the slot holds a value, any number M of
further calls all return exactly that value, the state is left untouched (so
no further underlying read happens and the read count stays fixed), and the
slot is never cleared or recomputed. -/
theorem get_hw_id_idempotent_memoization (srv : HwIdServiceServer)
    (fs : String → Nat → Except IoError (List Nat))
    (s : ServerState) (v : String) (h : s.identifier = some v) (M : Nat) :
    runCalls srv fs M s =
      (List.replicate M (Except.ok (Response.new { identifier := v })), s) := by
  obtain ⟨ident, c⟩ := s
  cases h
  exact runCalls_memoized srv fs M v c

/-- Witness for C2: two further calls on a warm cache return the cached value
and perform no read. -/
theorem get_hw_id_idempotent_memoization_witness :
    runCalls { interface := "eth0" }
      (fun _ _ => Except.error { message := "must not be read" }) 2
      { identifier := some "aa:bb:cc:dd:ee:ff", readCount := 1 } =
      (List.replicate 2
        (Except.ok (Response.new { identifier := "aa:bb:cc:dd:ee:ff" })),
       { identifier := some "aa:bb:cc:dd:ee:ff", readCount := 1 }) :=
  get_hw_id_idempotent_memoization { interface := "eth0" } _
    { identifier := some "aa:bb:cc:dd:ee:ff", readCount := 1 }
    "aa:bb:cc:dd:ee:ff" rfl 2

/-- C3.  No negative caching: a failed read (or a failed UTF-8 decode) returns
an error and leaves the slot empty, so with a probe source that fails once and
then succeeds, two sequential calls yield failure then success and the
underlying resource is read on both calls (final read count 2). -/
theorem get_hw_id_no_negative_caching (srv : HwIdServiceServer)
    (fs : String → Nat → Except IoError (List Nat))
    (e : IoError) (raw : List Nat) (str : String)
    (hfs0 : fs (addressPath srv.interface) 0 = Except.error e)
    (hfs1 : fs (addressPath srv.interface) 1 = Except.ok raw)
    (hdec : from_utf8 raw = Except.ok str) :
    (get_hw_id srv fs {} ServerState.initial).2.identifier = none ∧
    runCalls srv fs 2 ServerState.initial =
      ([Except.error (Status.internal (IoError.render e)),
        Except.ok (Response.new { identifier := rustTrim str })],
       { identifier := some (rustTrim str), readCount := 2 }) ∧
    (∀ (s : ServerState) (raw' : List Nat) (ue : Utf8Error),
      s.identifier = none →
      fs (addressPath srv.interface) s.readCount = Except.ok raw' →
      from_utf8 raw' = Except.error ue →
      get_hw_id srv fs {} s =
        (Except.error (Status.internal (Utf8Error.render ue)),
         { identifier := none, readCount := s.readCount + 1 })) := by
  have hfail : get_hw_id srv fs {} ServerState.initial =
      (Except.error (Status.internal (IoError.render e)),
       { identifier := none, readCount := 1 }) := by
    simp [get_hw_id, ServerState.initial, hfs0, to_tonic_error]
  refine ⟨by rw [hfail], ?_, ?_⟩
  · rw [show (2 : Nat) = 1 + 1 from rfl, runCalls, hfail, runCalls,
      get_hw_id_first_success srv fs raw str 1 hfs1 hdec, runCalls]
  · intro s raw' ue hnone hread hbad
    obtain ⟨ident, c⟩ := s
    cases hnone
    simp [get_hw_id, hread, hbad, to_tonic_ok, to_tonic_error]

/-- Witness for C3: the probe fails with a not-found error on the first read
and succeeds on the second. -/
theorem get_hw_id_no_negative_caching_witness :
    runCalls { interface := "eth0" }
      (fun _ k => if k = 0
        then Except.error { message := "No such file or directory (os error 2)" }
        else Except.ok [97, 98, 10]) 2 ServerState.initial =
      ([Except.error (Status.internal "No such file or directory (os error 2)"),
        Except.ok (Response.new { identifier := "ab" })],
       { identifier := some "ab", readCount := 2 }) :=
  (get_hw_id_no_negative_caching { interface := "eth0" } _
    { message := "No such file or directory (os error 2)" }
    [97, 98, 10] "ab\n" rfl rfl rfl).2.1

/-- C6.  Whitespace normalization: with the address file of `eth0` holding the
bytes of "aa:bb:cc:dd:ee:ff\n", the client `get_id` (served by `get_hw_id`)
returns "aa:bb:cc:dd:ee:ff", and that trimmed text is what gets stored. -/
theorem get_id_trims_whitespace :
    (get_id (Except.ok ())
      (fun req => (get_hw_id { interface := "eth0" }
        (fun p _ => if p = "/sys/class/net/eth0/address"
          then Except.ok
            [97, 97, 58, 98, 98, 58, 99, 99, 58, 100, 100, 58, 101, 101, 58,
             102, 102, 10]
          else Except.error { message := "No such file or directory (os error 2)" })
        req ServerState.initial).1)).1 = Except.ok "aa:bb:cc:dd:ee:ff" ∧
    (get_hw_id { interface := "eth0" }
        (fun p _ => if p = "/sys/class/net/eth0/address"
          then Except.ok
            [97, 97, 58, 98, 98, 58, 99, 99, 58, 100, 100, 58, 101, 101, 58,
             102, 102, 10]
          else Except.error { message := "No such file or directory (os error 2)" })
        {} ServerState.initial).2 =
      { identifier := some "aa:bb:cc:dd:ee:ff", readCount := 1 } :=
  ⟨rfl, rfl⟩

/-- C7.  A probe failure — unreadable address file or invalid UTF-8 — comes
back from `get_hw_id` as a status with the internal-fault code, which is not
the caller-fault code. -/
theorem get_hw_id_failure_internal_code (srv : HwIdServiceServer)
    (fs : String → Nat → Except IoError (List Nat))
    (s : ServerState) (hnone : s.identifier = none) :
    (∀ e : IoError,
      fs (addressPath srv.interface) s.readCount = Except.error e →
      ∃ st : Status, (get_hw_id srv fs {} s).1 = Except.error st ∧
        st.code = Code.internal ∧ st.code ≠ Code.invalidArgument) ∧
    (∀ (raw : List Nat) (ue : Utf8Error),
      fs (addressPath srv.interface) s.readCount = Except.ok raw →
      from_utf8 raw = Except.error ue →
      ∃ st : Status, (get_hw_id srv fs {} s).1 = Except.error st ∧
        st.code = Code.internal ∧ st.code ≠ Code.invalidArgument) := by
  obtain ⟨ident, c⟩ := s
  cases hnone
  constructor
  · intro e hread
    exact ⟨Status.internal (IoError.render e),
      by simp [get_hw_id, hread, to_tonic_error], rfl,
      fun h => Code.noConfusion h⟩
  · intro raw ue hread hbad
    exact ⟨Status.internal (Utf8Error.render ue),
      by simp [get_hw_id, hread, hbad, to_tonic_ok, to_tonic_error], rfl,
      fun h => Code.noConfusion h⟩

/-- Witness for C7: an unreadable address file yields an internal-code
status. -/
theorem get_hw_id_failure_internal_code_witness :
    ∃ st : Status,
      (get_hw_id { interface := "eth0" }
        (fun _ _ => Except.error
          { message := "No such file or directory (os error 2)" })
        {} ServerState.initial).1 = Except.error st ∧
      st.code = Code.internal ∧ st.code ≠ Code.invalidArgument :=
  (get_hw_id_failure_internal_code { interface := "eth0" } _
    ServerState.initial rfl).1
    { message := "No such file or directory (os error 2)" } rfl

/-- C10.  Verbatim error exposure: `to_tonic` turns every error into an
internal status whose message is exactly the error's string rendering, so a
probe failure surfaces the raw OS or decoding error text to the caller. -/
theorem get_hw_id_message_verbatim (srv : HwIdServiceServer)
    (fs : String → Nat → Except IoError (List Nat))
    (s : ServerState) (hnone : s.identifier = none) :
    (∀ {α ε : Type} (render : ε → String) (e : ε),
      to_tonic (α := α) render (Except.error e) =
        Except.error (Status.internal (render e))) ∧
    (∀ e : IoError,
      fs (addressPath srv.interface) s.readCount = Except.error e →
      ∃ st : Status, (get_hw_id srv fs {} s).1 = Except.error st ∧
        st.message = IoError.render e) ∧
    (∀ (raw : List Nat) (ue : Utf8Error),
      fs (addressPath srv.interface) s.readCount = Except.ok raw →
      from_utf8 raw = Except.error ue →
      ∃ st : Status, (get_hw_id srv fs {} s).1 = Except.error st ∧
        st.message = Utf8Error.render ue) := by
  obtain ⟨ident, c⟩ := s
  cases hnone
  refine ⟨fun render e => rfl, ?_, ?_⟩
  · intro e hread
    exact ⟨Status.internal (IoError.render e),
      by simp [get_hw_id, hread, to_tonic_error], rfl⟩
  · intro raw ue hread hbad
    exact ⟨Status.internal (Utf8Error.render ue),
      by simp [get_hw_id, hread, hbad, to_tonic_ok, to_tonic_error], rfl⟩

/-- Witness for C10: the OS error text appears verbatim in the status
message. -/
theorem get_hw_id_message_verbatim_witness :
    ∃ st : Status,
      (get_hw_id { interface := "eth0" }
        (fun _ _ => Except.error
          { message := "Permission denied (os error 13)" })
        {} ServerState.initial).1 = Except.error st ∧
      st.message = IoError.render { message := "Permission denied (os error 13)" } :=
  (get_hw_id_message_verbatim { interface := "eth0" } _
    ServerState.initial rfl).2.1
    { message := "Permission denied (os error 13)" } rfl

/-! ## Claims about the client -/

/-- C8 (counterexample to the claim as stated): with a failed connect, the
error `get_id` hands back is the transport error itself wrapped in the
client's error type — it is not a structured status of the escalation layer's
kind for any status value. -/
theorem get_id_connect_error_not_status :
    (get_id (Except.error { message := "transport error" })
      (fun _ => Except.ok (Response.new { identifier := "aa" }))).1 =
      Except.error (ClientError.transport { message := "transport error" }) ∧
    ¬ ∃ st : Status,
      (get_id (Except.error { message := "transport error" })
        (fun _ => Except.ok (Response.new { identifier := "aa" }))).1 =
        Except.error (ClientError.status st) := by
  refine ⟨rfl, ?_⟩
  rintro ⟨st, h⟩
  simp [get_id] at h

/-- C8 (amended).  When connect fails, `get_id` invokes connect exactly once,
issues no RPC and performs no retry, and propagates the connect failure to its
caller unchanged (as the transport error inside the client's error type); the
outcome is independent of the RPC collaborator. -/
theorem get_id_connect_error_fatal (e : ConnectError)
    (rpc : HwIdRequest → Except Status (Response HwIdResponse)) :
    get_id (Except.error e) rpc =
      (Except.error (ClientError.transport e),
       { connects := 1, rpcs := 0 }) ∧
    ∀ rpc' : HwIdRequest → Except Status (Response HwIdResponse),
      get_id (Except.error e) rpc = get_id (Except.error e) rpc' :=
  ⟨rfl, fun _ => rfl⟩

end Givc
